import Mathlib

/-!
Verification development for the NestJS documentation repository.

Part 1 embeds `ItemsService` from `Nest-CRUD.md` (the in-memory array CRUD
service): items are stored in an ordered list, `create` assigns
`id = items.length + 1` and pushes, `findOne` is `Array.prototype.find` by
`item.id === id`, `update` is `findIndex` followed by an in-place spread
merge, `remove` filters out matching ids and reports whether the list shrank.
-/

namespace ItemsService

/-- Embeds `CreateItemDto` (`id?: number; name: string; description: string`).
The stored collection holds values of this same type, as in the TypeScript
source where `items: CreateItemDto[]`; `id = none` models an absent `id`. -/
structure Item where
  id : Option Nat
  name : String
  description : String
deriving DecidableEq, Repr

/-- Embeds the body type of `update` (every field optional, as in a
TypeScript mapped type making all fields of `CreateItemDto` optional);
`none` models an absent key, `some v` a present key with value `v`. -/
structure ItemPatch where
  id : Option Nat
  name : Option String
  description : Option String
deriving DecidableEq, Repr

/-- Embeds `create`: `item.id = this.items.length + 1; this.items.push(item);
return item;`. Returns the stored entity and the new collection state. -/
def create (item : Item) (items : List Item) : Item × List Item :=
  let stored : Item := { item with id := some (items.length + 1) }
  (stored, items ++ [stored])

/-- Embeds `findAll`: returns the full sequence. -/
def findAll (items : List Item) : List Item :=
  items

/-- Embeds `findOne`: `this.items.find(item => item.id === id)`. -/
def findOne (id : Nat) (items : List Item) : Option Item :=
  items.find? (fun it => it.id == some id)

/-- Embeds the object-spread merge `{ ...existing, ...updatedItem }`: every
key present in the patch overwrites the existing field, absent keys leave the
field unchanged. -/
def mergeItem (it : Item) (patch : ItemPatch) : Item :=
  { id := match patch.id with
      | some v => some v
      | none => it.id,
    name := patch.name.getD it.name,
    description := patch.description.getD it.description }

/-- Embeds `update`: `findIndex(item => item.id === id)`; `-1` returns
`null`; otherwise the element at the found (first-match) index is replaced
in place by the spread merge and returned. The recursion replaces the first
matching element, exactly as `findIndex` + indexed assignment does. -/
def update (id : Nat) (patch : ItemPatch) : List Item → Option Item × List Item
  | [] => (none, [])
  | it :: rest =>
    if it.id == some id then
      (some (mergeItem it patch), mergeItem it patch :: rest)
    else
      let r := update id patch rest
      (r.1, it :: r.2)

/-- Embeds `remove`: `this.items = this.items.filter(item => item.id !== id);
return this.items.length < initialLength;`. -/
def remove (id : Nat) (items : List Item) : Bool × List Item :=
  let remaining := items.filter (fun it => it.id != some id)
  (decide (remaining.length < items.length), remaining)

end ItemsService

/-!
Part 2 embeds the JWT-authentication guide: the Mongoose `User` schema
(unique `username`, hashed `password`), `UsersService`, `AuthService`
(`register`, `validateUser`, `login`), `JwtStrategy`, and the constants of
`JwtModule.register`. The external collaborators (bcryptjs, MongoDB's
unique-index enforcement, `@nestjs/jwt` signing) are modelled from the
spec's description of them, as noted on each definition.
-/

namespace Auth

/-- Embeds the `User` schema: a stored document with the `username` and
`password` fields plus the document identifier the store assigns on save. -/
structure User where
  id : Nat
  username : String
  password : String
deriving DecidableEq, Repr

/-- Embeds `user.toObject()`: the stored document as a plain field map,
which is also what the framework serializes into a response body. -/
def toObject (u : User) : List (String × String) :=
  [("_id", toString u.id), ("username", u.username), ("password", u.password)]

/-- State of the users collection: the stored documents in insertion order,
plus the next document identifier the store will assign. -/
structure UsersState where
  users : List User
  nextId : Nat
deriving DecidableEq, Repr

/-- Modelled from the spec: bcrypt's one-way hash (the external `bcryptjs`
library), used by the guide at the fixed work factor 10. Modelled as an
injective tagged encoding, which keeps the properties the guides rely on:
compare succeeds exactly on the original secret, and the hash is never equal
to the raw secret. -/
def bcryptHash (cost : Nat) (raw : String) : String :=
  "$2b$" ++ toString cost ++ "$" ++ raw

/-- Modelled from the spec: `bcrypt.compare(raw, hashed)` — checks the raw
secret against a stored hash using the same one-way function. -/
def bcryptCompare (raw hashed : String) : Bool :=
  bcryptHash 10 raw == hashed

/-- Embeds `UsersService.findByUsername`:
`this.userModel.findOne({ username })`, the first stored document with the
given username. -/
def findByUsername (username : String) (st : UsersState) : Option User :=
  st.users.find? (fun u => u.username == username)

/-- Embeds `UsersService.create` (`new this.userModel(user)` followed by
`newUser.save()`) together with the unique index the schema declares on
`username` (`@Prop({ unique: true })`): saving a duplicate username is
rejected by the document store with a duplicate-key error; otherwise the
document is appended with a fresh identifier and returned. -/
def usersCreate (username password : String) (st : UsersState) :
    Except String (User × UsersState) :=
  if st.users.any (fun u => u.username == username) then
    Except.error "E11000 duplicate key"
  else
    Except.ok (⟨st.nextId, username, password⟩,
      ⟨st.users ++ [⟨st.nextId, username, password⟩], st.nextId + 1⟩)

/-- Embeds `AuthService.register`: hash with `bcrypt.hash(password, 10)` and
persist via `this.usersService.create({ username, password: hashed })`;
the saved document is returned as-is. -/
def register (username password : String) (st : UsersState) :
    Except String (User × UsersState) :=
  usersCreate username (bcryptHash 10 password) st

/-- Embeds the body of a successful `POST /auth/register`: the controller
returns `authService.register`'s result, i.e. the saved document, whose
serialized field map is `toObject`. -/
def registerResponse (username password : String) (st : UsersState) :
    Except String (List (String × String)) :=
  (register username password st).map (fun r => toObject r.1)

/-- Embeds `AuthService.validateUser`: look up by username; if present and
`bcrypt.compare(password, user.password)` holds, return `user.toObject()`
with the `password` key destructured away; otherwise `null`. -/
def validateUser (username password : String) (st : UsersState) :
    Option (List (String × String)) :=
  match findByUsername username st with
  | none => none
  | some u =>
    if bcryptCompare password u.password then
      some ((toObject u).filter (fun kv => kv.1 != "password"))
    else
      none

/-- Embeds the claims payload built by `AuthService.login`:
`{ username: user.username, sub: user._id }`. -/
structure JwtPayload where
  username : String
  sub : Nat
deriving DecidableEq, Repr

/-- Modelled from the spec: a signed token (external `@nestjs/jwt`) carrying
the claims, the issuance time, the expiry instant, and a signature over
those fields. -/
structure SignedToken where
  username : String
  sub : Nat
  iat : Nat
  exp : Nat
  sig : String
deriving DecidableEq, Repr

/-- Modelled from the spec: the signature over the token contents under the
server-held secret key (an HMAC, modelled as a tagged pairing of secret and
contents). -/
def jwtSignature (secret username : String) (sub iat exp : Nat) : String :=
  secret ++ "." ++ username ++ "." ++ toString sub ++ "."
    ++ toString iat ++ "." ++ toString exp

/-- Modelled from the spec: `jwtService.sign(payload)` with the module's
expiry horizon — attaches the issuance time, the expiry `now + horizon`,
and the signature under the secret. -/
def jwtSign (secret : String) (payload : JwtPayload) (now horizon : Nat) :
    SignedToken :=
  { username := payload.username, sub := payload.sub, iat := now,
    exp := now + horizon,
    sig := jwtSignature secret payload.username payload.sub now (now + horizon) }

/-- Modelled from the spec: token verification (passport-jwt with
`secretOrKey`) — accepts exactly when the signature verifies under the
secret and the expiry instant has not been reached, yielding the claims. -/
def jwtVerify (secret : String) (t : SignedToken) (now : Nat) :
    Option JwtPayload :=
  if t.sig = jwtSignature secret t.username t.sub t.iat t.exp ∧ now < t.exp then
    some ⟨t.username, t.sub⟩
  else
    none

/-- Embeds the hardcoded secret of `JwtModule.register` and `JwtStrategy`. -/
def jwtSecret : String := "jwt_secret"

/-- Embeds `signOptions: { expiresIn: '1h' }` in seconds. -/
def jwtExpirySeconds : Nat := 3600

/-- Embeds `AuthService.login`: builds the payload `{ username, sub }` from
the validated user and signs it with the module's secret and horizon. -/
def login (u : User) (now : Nat) : SignedToken :=
  jwtSign jwtSecret ⟨u.username, u.id⟩ now jwtExpirySeconds

/-- Embeds `JwtStrategy.validate`: maps verified claims to
`{ userId: payload.sub, username: payload.username }`. -/
def jwtStrategyValidate (payload : JwtPayload) : Nat × String :=
  (payload.sub, payload.username)

end Auth

/-!
Part 3 embeds the Validation Gate of the DTO guide: the `CreateUserDto`
declarations (`@IsNotEmpty() name`, `@IsEmail() email`,
`@MinLength(6) password`) and the globally installed `ValidationPipe`.
The pipeline itself (class-validator) is an external library, so the gate is
modelled from the spec's contract for it.
-/

namespace Validation

/-- A declared per-field constraint of a DTO shape: the field name, the
check of the (possibly absent) submitted value, and the violation message
reported when the check fails. -/
structure FieldConstraint where
  field : String
  check : Option String → Bool
  message : String

/-- Look up a field of the submitted input record (first occurrence). -/
def lookupField (rec : List (String × String)) (f : String) : Option String :=
  (rec.find? (fun kv => kv.1 == f)).map (fun kv => kv.2)

/-- Modelled from the spec: the Validation Gate's violation list — one
message per failing declared constraint, in declaration order. -/
def violations (schema : List FieldConstraint) (rec : List (String × String)) :
    List String :=
  (schema.filter (fun c => !(c.check (lookupField rec c.field)))).map
    (fun c => c.message)

/-- The structured error body `{ statusCode, message, error }` shown in the
guide's validation-error example. -/
structure ErrorBody where
  statusCode : Nat
  message : List String
  error : String
deriving DecidableEq, Repr

/-- Modelled from the spec: the `whitelist: true` sanitisation, keeping only
declared fields of the input record. -/
def sanitize (schema : List FieldConstraint) (rec : List (String × String)) :
    List (String × String) :=
  rec.filter (fun kv => schema.any (fun c => c.field == kv.1))

/-- Modelled from the spec: the Validation Gate — reject the whole request
with a 400 "Bad Request" error listing the violations when any constraint
fails, else pass the sanitized record through. -/
def validationGate (schema : List FieldConstraint)
    (rec : List (String × String)) :
    Except ErrorBody (List (String × String)) :=
  if violations schema rec = [] then
    Except.ok (sanitize schema rec)
  else
    Except.error ⟨400, violations schema rec, "Bad Request"⟩

/-- Embeds class-validator's `IsNotEmpty` on a possibly-absent value: fails
on a missing field and on the empty string. -/
def isNotEmptyCheck (v : Option String) : Bool :=
  match v with
  | none => false
  | some s => !s.isEmpty

/-- Modelled from the spec: the email-format constraint (`IsEmail`),
modelled as requiring an `@` among the value's characters; fails on a
missing field. -/
def isEmailCheck (v : Option String) : Bool :=
  match v with
  | none => false
  | some s => s.data.contains '@'

/-- Embeds class-validator's `MinLength(n)`: fails on a missing field and on
a value shorter than `n`. -/
def minLengthCheck (n : Nat) (v : Option String) : Bool :=
  match v with
  | none => false
  | some s => n ≤ s.length

/-- Embeds the `CreateUserDto` declarations of the DTO guide, in declaration
order, with the default messages shown in the guide's example response. -/
def createUserDtoSchema : List FieldConstraint :=
  [⟨"name", isNotEmptyCheck, "name should not be empty"⟩,
   ⟨"email", isEmailCheck, "email must be an email"⟩,
   ⟨"password", minLengthCheck 6,
     "password must be longer than or equal to 6 characters"⟩]

end Validation

open ItemsService

/-- Helper: a list none of whose elements carry identifier `id` yields no
`find?` hit for that identifier. -/
theorem find_id_none (id : Nat) (l : List Item) (h : ∀ x ∈ l, x.id ≠ some id) :
    l.find? (fun it => it.id == some id) = none := by
  rw [List.find?_eq_none]
  intro x hx
  simp only [beq_iff_eq]
  exact h x hx

/-- C1 (counterexample): starting from the reachable state `[⟨some 2, B⟩]`
(created by create-create-delete), `create C` assigns identifier `2`, but
`findOne 2` then returns the earlier entity `B`, not `C` with the assigned
identifier — `find` stops at the first match. -/
theorem create_then_findOne_counterexample :
    (remove 1 (create ⟨none, "B", "b"⟩ (create ⟨none, "A", "a"⟩ []).2).2).2
      = [⟨some 2, "B", "b"⟩] ∧
    (create ⟨none, "C", "c"⟩ [⟨some 2, "B", "b"⟩]).1.id = some 2 ∧
    findOne 2 (create ⟨none, "C", "c"⟩ [⟨some 2, "B", "b"⟩]).2
      = some ⟨some 2, "B", "b"⟩ ∧
    (⟨some 2, "B", "b"⟩ : Item) ≠ ⟨some 2, "C", "c"⟩ := by
  decide

/-- C1 (amended): for every collection state in which no stored entity
already carries the identifier that `create` will assign (`size + 1`),
`create X` followed by `findOne` of the assigned identifier returns the
entity `X` plus that identifier. -/
theorem create_then_findOne_roundtrip (item : Item) (l : List Item)
    (h : ∀ x ∈ l, x.id ≠ some (l.length + 1)) :
    (create item l).1 = ⟨some (l.length + 1), item.name, item.description⟩ ∧
    findOne (l.length + 1) (create item l).2
      = some ⟨some (l.length + 1), item.name, item.description⟩ := by
  refine ⟨rfl, ?_⟩
  simp only [findOne, create]
  rw [List.find?_append, find_id_none _ _ h]
  simp

/-- Witness for C1 (amended) at the empty collection. -/
theorem create_then_findOne_roundtrip_witness :
    (∀ x ∈ ([] : List Item), x.id ≠ some 1) ∧
    findOne 1 (create ⟨none, "A", "a"⟩ []).2 = some ⟨some 1, "A", "a"⟩ :=
  ⟨by decide, (create_then_findOne_roundtrip ⟨none, "A", "a"⟩ [] (by decide)).2⟩

/-- C2: `create` assigns identifier `size + 1`, keeps the input's other
fields, appends the stored entity at the end, and returns it; moreover the
concrete trace create-A, delete-1, create-B hands the identifier `1` to two
distinct entities over the collection's lifetime. -/
theorem create_assigns_size_plus_one :
    (∀ (item : Item) (l : List Item),
        (create item l).1.id = some (l.length + 1) ∧
        (create item l).1.name = item.name ∧
        (create item l).1.description = item.description ∧
        (create item l).2 = l ++ [(create item l).1]) ∧
    ((create ⟨none, "A", "a"⟩ []).1.id = some 1 ∧
      (create ⟨none, "B", "b"⟩ (remove 1 (create ⟨none, "A", "a"⟩ []).2).2).1.id
        = some 1 ∧
      (create ⟨none, "B", "b"⟩ (remove 1 (create ⟨none, "A", "a"⟩ []).2).2).1
        ≠ (create ⟨none, "A", "a"⟩ []).1) :=
  ⟨fun _ _ => ⟨rfl, rfl, rfl, rfl⟩, by decide⟩

/-- C3: `update` on a state whose first entity with identifier `id` is `it`
replaces `it` in place (same position, rest of the list untouched) by the
shallow merge and returns the merged entity; the merge overwrites exactly
the fields present in the patch; and when no entity carries `id`, `update`
returns the absence signal `none` and leaves the state unchanged. -/
theorem update_shallow_merges_in_place :
    (∀ (l₁ l₂ : List Item) (it : Item) (id : Nat) (patch : ItemPatch),
        (∀ x ∈ l₁, x.id ≠ some id) → it.id = some id →
        update id patch (l₁ ++ it :: l₂)
          = (some (mergeItem it patch), l₁ ++ mergeItem it patch :: l₂)) ∧
    (∀ (it : Item) (patch : ItemPatch),
        (∀ v, patch.id = some v → (mergeItem it patch).id = some v) ∧
        (patch.id = none → (mergeItem it patch).id = it.id) ∧
        (∀ v, patch.name = some v → (mergeItem it patch).name = v) ∧
        (patch.name = none → (mergeItem it patch).name = it.name) ∧
        (∀ v, patch.description = some v → (mergeItem it patch).description = v) ∧
        (patch.description = none →
          (mergeItem it patch).description = it.description)) ∧
    (∀ (l : List Item) (id : Nat) (patch : ItemPatch),
        (∀ x ∈ l, x.id ≠ some id) → update id patch l = (none, l)) := by
  refine ⟨?_, ?_, ?_⟩
  · intro l₁ l₂ it id patch h1 h2
    induction l₁ with
    | nil => simp [update, h2]
    | cons hd tl ih =>
      have hhd : hd.id ≠ some id := h1 hd (by simp)
      have h1t : ∀ x ∈ tl, x.id ≠ some id := fun x hx => h1 x (by simp [hx])
      simp [update, hhd, ih h1t]
  · intro it patch
    refine ⟨?_, ?_, ?_, ?_, ?_, ?_⟩ <;> first
      | (intro v hv; simp [mergeItem, hv])
      | (intro hv; simp [mergeItem, hv])
  · intro l id patch h
    induction l with
    | nil => rfl
    | cons hd tl ih =>
      have hhd : hd.id ≠ some id := h hd (by simp)
      have ht : ∀ x ∈ tl, x.id ≠ some id := fun x hx => h x (by simp [hx])
      simp [update, hhd, ih ht]

/-- Witness for C3: a found in-place merge and a not-found absence signal at
concrete states. -/
theorem update_shallow_merges_in_place_witness :
    update 2 ⟨none, some "BB", none⟩ ([⟨some 1, "A", "a"⟩] ++ ⟨some 2, "B", "b"⟩ :: [])
      = (some (mergeItem ⟨some 2, "B", "b"⟩ ⟨none, some "BB", none⟩),
         [⟨some 1, "A", "a"⟩] ++ mergeItem ⟨some 2, "B", "b"⟩ ⟨none, some "BB", none⟩ :: []) ∧
    update 5 ⟨none, none, none⟩ [⟨some 1, "A", "a"⟩] = (none, [⟨some 1, "A", "a"⟩]) :=
  ⟨update_shallow_merges_in_place.1 [⟨some 1, "A", "a"⟩] [] ⟨some 2, "B", "b"⟩ 2
      ⟨none, some "BB", none⟩ (by decide) (by decide),
    update_shallow_merges_in_place.2.2 [⟨some 1, "A", "a"⟩] 5 ⟨none, none, none⟩
      (by decide)⟩

/-- C4: `remove id` keeps exactly the entities whose identifier differs from
`id`, reports `true` exactly when some entity matched — equivalently exactly
when the collection shrank — and afterwards `findOne id` returns absence. -/
theorem remove_filters_and_reports_shrink (id : Nat) (l : List Item) :
    (remove id l).2 = l.filter (fun it => it.id != some id) ∧
    (∀ x, x ∈ (remove id l).2 ↔ x ∈ l ∧ x.id ≠ some id) ∧
    ((remove id l).1 = true ↔ ∃ x ∈ l, x.id = some id) ∧
    ((remove id l).1 = true ↔ (remove id l).2.length < l.length) ∧
    findOne id (remove id l).2 = none := by
  refine ⟨rfl, ?_, ?_, ?_, ?_⟩
  · intro x
    simp [remove, List.mem_filter]
  · simp [remove, List.length_filter_lt_length_iff_exists]
  · simp [remove]
  · apply find_id_none
    intro x hx
    have := List.of_mem_filter hx
    simpa using this

/-- C10 (implicit): the shallow merge does not protect the identifier — at
the concrete state `[⟨some 1, A⟩]`, a patch carrying `id := 2` rewrites the
stored entity's identifier, after which `findOne 1` returns absence while
the collection length is unchanged. -/
theorem update_can_overwrite_identifier :
    update 1 ⟨some 2, none, none⟩ [⟨some 1, "A", "a"⟩]
      = (some ⟨some 2, "A", "a"⟩, [⟨some 2, "A", "a"⟩]) ∧
    findOne 1 (update 1 ⟨some 2, none, none⟩ [⟨some 1, "A", "a"⟩]).2 = none ∧
    (update 1 ⟨some 2, none, none⟩ [⟨some 1, "A", "a"⟩]).2.length
      = ([⟨some 1, "A", "a"⟩] : List Item).length := by
  decide

open Auth Validation

/-- Helper: the modelled one-way hash never equals the raw secret. -/
theorem bcryptHash_ne_raw (cost : Nat) (raw : String) :
    bcryptHash cost raw ≠ raw := by
  intro h
  have hl := congrArg String.length h
  simp only [bcryptHash, String.length_append] at hl
  have h4 : ("$2b$" : String).length = 4 := rfl
  have h1 : ("$" : String).length = 1 := rfl
  rw [h4, h1] at hl
  omega

/-- Helper: unpacking a successful `register`: no stored user had the
username, the saved document is the hash-carrying fresh document, and the
new state appends it. -/
theorem register_ok_inversion (username password : String) (st : UsersState)
    (u : User) (st' : UsersState)
    (h : register username password st = Except.ok (u, st')) :
    (∀ v ∈ st.users, v.username ≠ username) ∧
    u = ⟨st.nextId, username, bcryptHash 10 password⟩ ∧
    st' = ⟨st.users ++ [u], st.nextId + 1⟩ := by
  by_cases hdup : st.users.any (fun v => v.username == username) = true
  · simp [register, usersCreate, hdup] at h
  · have hfalse : st.users.any (fun v => v.username == username) = false := by
      simpa using hdup
    have hall : ∀ v ∈ st.users, v.username ≠ username := by
      intro v hv
      have := List.any_eq_false.mp hfalse v hv
      simpa using this
    simp only [register, usersCreate, hfalse, Bool.false_eq_true, if_false,
      Except.ok.injEq, Prod.mk.injEq] at h
    obtain ⟨hu, hst⟩ := h
    subst hu
    subst hst
    exact ⟨hall, rfl, rfl⟩

/-- C5: `validateUser` fails closed: an unknown username yields `none`
rather than an error; a known username with a non-matching secret yields
`none`; a matching secret yields the stored record with the `password` key
absent from the result; and registering then validating with the same raw
secret is such a match. -/
theorem validateUser_fails_closed :
    (∀ username password st, findByUsername username st = none →
        validateUser username password st = none) ∧
    (∀ username password st u, findByUsername username st = some u →
        bcryptCompare password u.password = false →
        validateUser username password st = none) ∧
    (∀ username password st u, findByUsername username st = some u →
        bcryptCompare password u.password = true →
        validateUser username password st
          = some ((toObject u).filter (fun kv => kv.1 != "password")) ∧
        ∀ kv ∈ (toObject u).filter (fun kv => kv.1 != "password"),
          kv.1 ≠ "password") ∧
    (∀ username password st u st',
        register username password st = Except.ok (u, st') →
        validateUser username password st'
          = some ((toObject u).filter (fun kv => kv.1 != "password"))) := by
  refine ⟨?_, ?_, ?_, ?_⟩
  · intro username password st h
    simp [validateUser, h]
  · intro username password st u h hc
    simp [validateUser, h, hc]
  · intro username password st u h hc
    refine ⟨by simp [validateUser, h, hc], ?_⟩
    intro kv hkv
    have := List.of_mem_filter hkv
    simpa using this
  · intro username password st u st' h
    obtain ⟨hall, hu, hst⟩ := register_ok_inversion username password st u st' h
    subst hu
    subst hst
    have hnone : st.users.find? (fun v => v.username == username) = none := by
      rw [List.find?_eq_none]
      intro x hx
      simpa using hall x hx
    simp [validateUser, findByUsername, List.find?_append, hnone, bcryptCompare]

/-- Witness for C5: all four behaviors at concrete states built from the
guide's test data. -/
theorem validateUser_fails_closed_witness :
    validateUser "ram" "1234" ⟨[], 1⟩ = none ∧
    validateUser "ram" "9999" ⟨[⟨1, "ram", bcryptHash 10 "1234"⟩], 2⟩ = none ∧
    validateUser "ram" "1234" ⟨[⟨1, "ram", bcryptHash 10 "1234"⟩], 2⟩
      = some ((toObject ⟨1, "ram", bcryptHash 10 "1234"⟩).filter
          (fun kv => kv.1 != "password")) ∧
    validateUser "sita" "abcd" ⟨[⟨1, "sita", bcryptHash 10 "abcd"⟩], 2⟩
      = some ((toObject ⟨1, "sita", bcryptHash 10 "abcd"⟩).filter
          (fun kv => kv.1 != "password")) :=
  ⟨validateUser_fails_closed.1 "ram" "1234" ⟨[], 1⟩ (by decide),
   validateUser_fails_closed.2.1 "ram" "9999" ⟨[⟨1, "ram", bcryptHash 10 "1234"⟩], 2⟩
     ⟨1, "ram", bcryptHash 10 "1234"⟩ (by decide) (by decide),
   (validateUser_fails_closed.2.2.1 "ram" "1234"
     ⟨[⟨1, "ram", bcryptHash 10 "1234"⟩], 2⟩
     ⟨1, "ram", bcryptHash 10 "1234"⟩ (by decide) (by decide)).1,
   validateUser_fails_closed.2.2.2 "sita" "abcd" ⟨[], 1⟩
     ⟨1, "sita", bcryptHash 10 "abcd"⟩ ⟨[⟨1, "sita", bcryptHash 10 "abcd"⟩], 2⟩
     rfl⟩

/-- C6 (counterexample): at the guide's own example input, the body of a
successful `POST /auth/register` is the saved document and it carries the
stored secret-hash field `password` — the claim that no stored secret/hash
field appears in the returned record is false. -/
theorem registerResponse_contains_hash_counterexample :
    registerResponse "ram" "1234" ⟨[], 1⟩
      = Except.ok [("_id", "1"), ("username", "ram"),
          ("password", bcryptHash 10 "1234")] ∧
    ("password", bcryptHash 10 "1234")
      ∈ [("_id", "1"), ("username", "ram"), ("password", bcryptHash 10 "1234")] ∧
    ¬ (∀ kv ∈ [("_id", "1"), ("username", "ram"),
          ("password", bcryptHash 10 "1234")], kv.1 ≠ "password") := by
  refine ⟨rfl, by decide, by decide⟩

/-- C6 (amended): the value returned by a successful Register is the full
stored user document, including the stored secret-hash field `password`;
the raw secret itself never appears as the stored or returned secret value,
because the stored value is the one-way hash, which differs from the raw
secret. -/
theorem registerResponse_is_full_document (username password : String)
    (st : UsersState) (u : User) (st' : UsersState)
    (h : register username password st = Except.ok (u, st')) :
    registerResponse username password st = Except.ok (toObject u) ∧
    u.password = bcryptHash 10 password ∧
    ("password", bcryptHash 10 password) ∈ toObject u ∧
    u.password ≠ password := by
  obtain ⟨hall, hu, hst⟩ := register_ok_inversion username password st u st' h
  refine ⟨by simp [registerResponse, h, Except.map], ?_, ?_, ?_⟩
  · rw [hu]
  · rw [hu]
    simp [toObject]
  · rw [hu]
    exact bcryptHash_ne_raw 10 password

/-- Witness for C6 (amended) at the guide's register example. -/
theorem registerResponse_is_full_document_witness :
    registerResponse "ram" "1234" ⟨[], 1⟩
      = Except.ok (toObject ⟨1, "ram", bcryptHash 10 "1234"⟩) ∧
    (⟨1, "ram", bcryptHash 10 "1234"⟩ : User).password = bcryptHash 10 "1234" ∧
    ("password", bcryptHash 10 "1234") ∈ toObject ⟨1, "ram", bcryptHash 10 "1234"⟩ ∧
    (⟨1, "ram", bcryptHash 10 "1234"⟩ : User).password ≠ "1234" :=
  registerResponse_is_full_document "ram" "1234" ⟨[], 1⟩
    ⟨1, "ram", bcryptHash 10 "1234"⟩ ⟨[⟨1, "ram", bcryptHash 10 "1234"⟩], 2⟩ rfl

/-- C7: Register fails with the duplicate-key conflict exactly when a user
with the username already exists (the schema's unique index); otherwise it
persists the pair of the username and the fixed-work-factor hash — never
the raw secret, which the hash always differs from. -/
theorem register_conflicts_on_duplicate :
    (∀ username password st, (∃ v ∈ st.users, v.username = username) →
        register username password st = Except.error "E11000 duplicate key") ∧
    (∀ username password st, (∀ v ∈ st.users, v.username ≠ username) →
        register username password st
          = Except.ok (⟨st.nextId, username, bcryptHash 10 password⟩,
              ⟨st.users ++ [⟨st.nextId, username, bcryptHash 10 password⟩],
                st.nextId + 1⟩)) ∧
    (∀ cost raw, bcryptHash cost raw ≠ raw) := by
  refine ⟨?_, ?_, bcryptHash_ne_raw⟩
  · intro username password st h
    have hany : st.users.any (fun v => v.username == username) = true := by
      rw [List.any_eq_true]
      obtain ⟨v, hv, hveq⟩ := h
      exact ⟨v, hv, by simp [hveq]⟩
    simp [register, usersCreate, hany]
  · intro username password st h
    have hany : st.users.any (fun v => v.username == username) = false := by
      rw [List.any_eq_false]
      intro v hv
      simpa using h v hv
    simp [register, usersCreate, hany]

/-- Witness for C7: a duplicate registration conflicts, a fresh one
persists the hash. -/
theorem register_conflicts_on_duplicate_witness :
    register "ram" "5678" ⟨[⟨1, "ram", bcryptHash 10 "1234"⟩], 2⟩
      = Except.error "E11000 duplicate key" ∧
    register "ram" "1234" ⟨[], 1⟩
      = Except.ok (⟨1, "ram", bcryptHash 10 "1234"⟩,
          ⟨[] ++ [⟨1, "ram", bcryptHash 10 "1234"⟩], 2⟩) :=
  ⟨register_conflicts_on_duplicate.1 "ram" "5678"
      ⟨[⟨1, "ram", bcryptHash 10 "1234"⟩], 2⟩
      ⟨⟨1, "ram", bcryptHash 10 "1234"⟩, by simp, rfl⟩,
   register_conflicts_on_duplicate.2.1 "ram" "1234" ⟨[], 1⟩ (by decide)⟩

/-- C8: whenever some declared constraint fails on the input record (a
missing required field or a violated per-field constraint), the Validation
Gate rejects the whole request with status code 400, error label
"Bad Request", and a violation list holding exactly one message per failing
constraint, in the order the constraints were declared. -/
theorem validationGate_rejects_with_itemized_violations
    (schema : List FieldConstraint) (rec : List (String × String))
    (h : ∃ c ∈ schema, c.check (lookupField rec c.field) = false) :
    validationGate schema rec
      = Except.error ⟨400, violations schema rec, "Bad Request"⟩ ∧
    violations schema rec
      = (schema.filter (fun c => !(c.check (lookupField rec c.field)))).map
          (fun c => c.message) ∧
    (violations schema rec).length
      = (schema.filter (fun c => !(c.check (lookupField rec c.field)))).length := by
  have hne : violations schema rec ≠ [] := by
    obtain ⟨c, hc, hfail⟩ := h
    intro heq
    simp only [violations, List.map_eq_nil_iff, List.filter_eq_nil_iff] at heq
    have := heq c hc
    rw [hfail] at this
    simp at this
  refine ⟨?_, rfl, by simp [violations]⟩
  unfold validationGate
  rw [if_neg hne]

/-- Witness for C8 at the guide's own example request (missing `name`,
malformed `email`, a too-short `password`): the gate reports all three
default messages, in declaration order. -/
theorem validationGate_rejects_witness :
    validationGate createUserDtoSchema
        [("email", "not-an-email"), ("password", "123")]
      = Except.error ⟨400,
          violations createUserDtoSchema
            [("email", "not-an-email"), ("password", "123")],
          "Bad Request"⟩ ∧
    violations createUserDtoSchema [("email", "not-an-email"), ("password", "123")]
      = ["name should not be empty", "email must be an email",
         "password must be longer than or equal to 6 characters"] :=
  ⟨(validationGate_rejects_with_itemized_violations createUserDtoSchema
      [("email", "not-an-email"), ("password", "123")]
      ⟨⟨"name", isNotEmptyCheck, "name should not be empty"⟩,
        by simp [createUserDtoSchema], rfl⟩).1,
   by decide⟩

/-- C9: signing a claims payload and verifying it before the expiry horizon
elapses round-trips the claims (and through the strategy, the subject
identifier and username of the logged-in user); verification fails once the
horizon has elapsed, and fails on any token whose signature does not verify
under the server secret. -/
theorem token_sign_verify_roundtrip :
    (∀ (payload : JwtPayload) (tIssue tCheck : Nat),
        tCheck < tIssue + jwtExpirySeconds →
        jwtVerify jwtSecret (jwtSign jwtSecret payload tIssue jwtExpirySeconds)
            tCheck = some payload) ∧
    (∀ (u : User) (tIssue tCheck : Nat), tCheck < tIssue + jwtExpirySeconds →
        (jwtVerify jwtSecret (login u tIssue) tCheck).map jwtStrategyValidate
          = some (u.id, u.username)) ∧
    (∀ (payload : JwtPayload) (tIssue tCheck : Nat),
        tIssue + jwtExpirySeconds ≤ tCheck →
        jwtVerify jwtSecret (jwtSign jwtSecret payload tIssue jwtExpirySeconds)
            tCheck = none) ∧
    (∀ (t : SignedToken) (now : Nat),
        t.sig ≠ jwtSignature jwtSecret t.username t.sub t.iat t.exp →
        jwtVerify jwtSecret t now = none) := by
  refine ⟨?_, ?_, ?_, ?_⟩
  · intro payload tIssue tCheck h
    obtain ⟨un, sb⟩ := payload
    simp [jwtVerify, jwtSign, h]
  · intro u tIssue tCheck h
    simp [jwtVerify, jwtSign, login, jwtStrategyValidate, h]
  · intro payload tIssue tCheck h
    have hlt : ¬ tCheck < tIssue + jwtExpirySeconds := by omega
    unfold jwtVerify jwtSign
    exact if_neg (fun hc => hlt hc.2)
  · intro t now h
    unfold jwtVerify
    exact if_neg (fun hc => h hc.1)

/-- Witness for C9: a concrete round-trip, a concrete expired check, and a
concrete forged signature. -/
theorem token_sign_verify_roundtrip_witness :
    jwtVerify jwtSecret (jwtSign jwtSecret ⟨"ram", 1⟩ 0 jwtExpirySeconds) 10
      = some ⟨"ram", 1⟩ ∧
    (jwtVerify jwtSecret (login ⟨1, "ram", "pw"⟩ 0) 10).map jwtStrategyValidate
      = some (1, "ram") ∧
    jwtVerify jwtSecret (jwtSign jwtSecret ⟨"ram", 1⟩ 0 jwtExpirySeconds) 3600
      = none ∧
    jwtVerify jwtSecret
      { username := "ram", sub := 1, iat := 0, exp := 3600, sig := "forged" } 5
      = none :=
  ⟨token_sign_verify_roundtrip.1 ⟨"ram", 1⟩ 0 10 (by decide),
   token_sign_verify_roundtrip.2.1 ⟨1, "ram", "pw"⟩ 0 10 (by decide),
   token_sign_verify_roundtrip.2.2.1 ⟨"ram", 1⟩ 0 3600 (by decide),
   token_sign_verify_roundtrip.2.2.2
     { username := "ram", sub := 1, iat := 0, exp := 3600, sig := "forged" } 5
     (by decide)⟩
